import Mathlib

/-!
Verification of the looping-timer repository.

The development shallowly embeds the timer logic of the repository:
the cycle clock of src/src/hooks/useTimer.ts (the useTimer hook), the
feedback dispatcher of src/src/hooks/useTickSound.ts (the useTickSound
hook, enhanced version with mute, speech and tickInterval options), and
the URL query-parameter persistence layer of the useQueryParams hook
(parseQueryParams and updateURL).

JavaScript numbers are modelled as rationals, integer-valued quantities
as integers.  The side-effecting audio and speech calls are modelled as
an explicit list of channel actions emitted by one observation step.
-/

namespace LoopingTimer

/-! ### Cycle clock (useTimer, src/src/hooks/useTimer.ts lines 9-49) -/

/-- Truncation toward zero, as performed by the JavaScript `%` operator
when computing the implied quotient. -/
def jsTrunc (q : ℚ) : ℤ := if 0 ≤ q then ⌊q⌋ else ⌈q⌉

/-- The JavaScript remainder operator on numbers:
`x % y = x - y * trunc (x / y)` (sign follows the dividend).  The
divisor-zero case (NaN in JavaScript) lies outside the modelled domain;
every use below has a positive divisor. -/
def jsFmod (x y : ℚ) : ℚ := x - y * (jsTrunc (x / y) : ℚ)

/-- The object returned by the useTimer hook (lines 43-48). -/
structure TimerSnapshot where
  progress : ℚ
  timeRemaining : ℚ
  elapsedSeconds : ℚ
  cyclePosition : ℚ
deriving DecidableEq, Repr

/-- The pure computation of useTimer (lines 38-48): given the fixed
start instant held in startTimeRef, the current instant held in the
currentTime state, and the loopLengthInSeconds argument, derive the
snapshot.  Instants are in milliseconds. -/
def useTimer (startTime currentTime loopLengthInSeconds : ℚ) : TimerSnapshot :=
  let elapsedSeconds := (currentTime - startTime) / 1000
  let cyclePosition := jsFmod elapsedSeconds loopLengthInSeconds
  let progress := cyclePosition / loopLengthInSeconds
  let timeRemaining := loopLengthInSeconds - cyclePosition
  { progress := progress
    timeRemaining := timeRemaining
    elapsedSeconds := elapsedSeconds
    cyclePosition := cyclePosition }

/-- The mutable state of the useTimer hook: startTimeRef (line 11, set
once at mount and never written again) and the currentTime state
(line 10). -/
structure TimerHookState where
  startTime : ℚ
  currentTime : ℚ
deriving DecidableEq, Repr

/-- Mount of the hook: both startTimeRef and currentTime are
initialized to Date.now() (lines 10-11). -/
def initTimerHook (now : ℚ) : TimerHookState :=
  { startTime := now, currentTime := now }

/-- The updateCurrentTime callback (lines 15-17): setCurrentTime with a
fresh Date.now().  startTimeRef is untouched. -/
def updateCurrentTime (st : TimerHookState) (now : ℚ) : TimerHookState :=
  { startTime := st.startTime, currentTime := now }

/-- A render of the hook computes the snapshot from the current state
and the loopLengthInSeconds argument (lines 38-48). -/
def renderTimer (st : TimerHookState) (loopLengthInSeconds : ℚ) : TimerSnapshot :=
  useTimer st.startTime st.currentTime loopLengthInSeconds

lemma jsFmod_eq_mul_fract {x y : ℚ} (hx : 0 ≤ x) (hy : 0 < y) :
    jsFmod x y = y * Int.fract (x / y) := by
  have hxy : 0 ≤ x / y := div_nonneg hx hy.le
  have hyne : y ≠ 0 := ne_of_gt hy
  rw [jsFmod, jsTrunc, if_pos hxy, Int.fract, mul_sub, mul_div_cancel₀ x hyne]

lemma jsFmod_nonneg {x y : ℚ} (hx : 0 ≤ x) (hy : 0 < y) : 0 ≤ jsFmod x y := by
  rw [jsFmod_eq_mul_fract hx hy]
  exact mul_nonneg hy.le (Int.fract_nonneg _)

lemma jsFmod_lt {x y : ℚ} (hx : 0 ≤ x) (hy : 0 < y) : jsFmod x y < y := by
  rw [jsFmod_eq_mul_fract hx hy]
  calc y * Int.fract (x / y) < y * 1 :=
        (mul_lt_mul_left hy).mpr (Int.fract_lt_one _)
    _ = y := mul_one y

/-- C1: for every start instant `s`, current instant `t ≥ s` and cycle
length `L > 0`, the snapshot computed by useTimer satisfies
`elapsedSeconds = (t - s) / 1000`, `0 ≤ cyclePosition < L`,
`progress = cyclePosition / L` and `timeRemaining = L - cyclePosition`. -/
theorem useTimer_snapshot_correct (s t L : ℚ) (hst : s ≤ t) (hL : 0 < L) :
    (useTimer s t L).elapsedSeconds = (t - s) / 1000 ∧
    0 ≤ (useTimer s t L).cyclePosition ∧
    (useTimer s t L).cyclePosition < L ∧
    (useTimer s t L).progress = (useTimer s t L).cyclePosition / L ∧
    (useTimer s t L).timeRemaining = L - (useTimer s t L).cyclePosition := by
  have helapsed : 0 ≤ (t - s) / 1000 :=
    div_nonneg (sub_nonneg.mpr hst) (by norm_num)
  exact ⟨rfl, jsFmod_nonneg helapsed hL, jsFmod_lt helapsed hL, rfl, rfl⟩

/-- C1 witness: start at 0, now at 5000 ms, cycle length 5 s — the
cycle has wrapped back to position 0 with full time remaining. -/
theorem useTimer_snapshot_correct_witness :
    (useTimer 0 5000 5).elapsedSeconds = 5 ∧
    0 ≤ (useTimer 0 5000 5).cyclePosition ∧
    (useTimer 0 5000 5).cyclePosition < 5 ∧
    (useTimer 0 5000 5).progress = 0 ∧
    (useTimer 0 5000 5).timeRemaining = 5 := by
  have h := useTimer_snapshot_correct 0 5000 5 (by norm_num) (by norm_num)
  refine ⟨?_, h.2.1, h.2.2.1, ?_, ?_⟩ <;>
    norm_num [useTimer, jsFmod, jsTrunc]

/-- C2: re-rendering with a new cycle length does not reset the start
instant; the snapshot for the new length `L2` derives its cycle
position as the same elapsed time taken modulo `L2`. -/
theorem useTimer_length_change_no_reset (st0 : TimerHookState) (t1 t2 L1 L2 : ℚ)
    (hL1 : 0 < L1) (hL2 : 0 < L2) :
    (updateCurrentTime (updateCurrentTime st0 t1) t2).startTime = st0.startTime ∧
    (renderTimer (updateCurrentTime st0 t1) L1).cyclePosition =
      jsFmod ((t1 - st0.startTime) / 1000) L1 ∧
    (renderTimer (updateCurrentTime (updateCurrentTime st0 t1) t2) L2).cyclePosition =
      jsFmod ((t2 - st0.startTime) / 1000) L2 ∧
    (renderTimer (updateCurrentTime (updateCurrentTime st0 t1) t2) L2).cyclePosition =
      jsFmod ((renderTimer (updateCurrentTime (updateCurrentTime st0 t1) t2)
        L2).elapsedSeconds) L2 := by
  exact ⟨rfl, rfl, rfl, rfl⟩

/-- C2 witness: start at 0, render at 3000 ms with length 30, then at
10000 ms with length 7 — the start instant is still 0 and the position
is 10 mod 7 = 3. -/
theorem useTimer_length_change_no_reset_witness :
    (updateCurrentTime (updateCurrentTime (initTimerHook 0) 3000) 10000).startTime = 0 ∧
    (renderTimer (updateCurrentTime (updateCurrentTime (initTimerHook 0) 3000) 10000)
      7).cyclePosition = 3 := by
  have h := useTimer_length_change_no_reset (initTimerHook 0) 3000 10000 30 7
    (by norm_num) (by norm_num)
  refine ⟨h.1, h.2.2.1.trans ?_⟩
  norm_num [initTimerHook, jsFmod, jsTrunc]

/-! ### Feedback dispatcher (useTickSound, src/src/hooks/useTickSound.ts
lines 17-231, enhanced version with options) -/

/-- `Math.ceil` on a number: round up to the nearest integer. -/
def jsCeil (q : ℚ) : ℤ := ⌈q⌉

/-- The side-effecting calls a single observation can issue on the
feedback channel, in order.  `resetAudioTime` is the assignment
`audioRef.current.currentTime = 0` (line 188), `playAudio` is
`audioRef.current.play()` (line 191), `cancelSpeech` is
`speechSynthesis.cancel()` (line 210) and `speak n` is
`speechSynthesis.speak` of the utterance of `n.toString()` (line 225). -/
inductive ChannelAction where
  | cancelSpeech : ChannelAction
  | speak : ℤ → ChannelAction
  | resetAudioTime : ChannelAction
  | playAudio : ChannelAction
deriving DecidableEq, Repr

/-- The speakNumber helper (lines 206-230): cancel any ongoing speech,
then speak the number. -/
def speakNumber (n : ℤ) : List ChannelAction :=
  [ChannelAction.cancelSpeech, ChannelAction.speak n]

/-- The playTickSound helper (lines 176-204): reset the audio cue to
its beginning, then play it. -/
def playTickSound : List ChannelAction :=
  [ChannelAction.resetAudioTime, ChannelAction.playAudio]

/-- The JavaScript test `a % b === 0` on integers.  JavaScript `%` is
the truncated remainder; when `b = 0` the remainder is NaN and the
strict comparison with 0 is false. -/
def jsRemIsZero (a b : ℤ) : Bool :=
  if b = 0 then false else a.tmod b == 0

/-- The stride filter (lines 159-161): play on every change when
`tickInterval === 1`, otherwise only on positive multiples of the
interval (excluding 0). -/
def shouldPlay (roundedSeconds tickInterval : ℤ) : Bool :=
  tickInterval == 1 ||
    (decide (0 < roundedSeconds) && jsRemIsZero roundedSeconds tickInterval)

/-- One run of the dispatch effect (lines 148-174): given the stored
`previousSecondsRef` value and the observed `currentSeconds`, return
the new `previousSecondsRef` value together with the channel actions
issued.  An undefined `currentSeconds` returns immediately (line 149);
otherwise the candidate tick is edge-detected (line 155), mute-checked
(line 156) and stride-filtered (lines 159-161), and
`previousSecondsRef` is unconditionally set to the rounded value
(line 173). -/
def useTickSound (previousSeconds : Option ℤ) (currentSeconds : Option ℚ)
    (isMuted useSpeech : Bool) (tickInterval : ℤ) :
    Option ℤ × List ChannelAction :=
  match currentSeconds with
  | none => (previousSeconds, [])
  | some v =>
    let roundedSeconds : ℤ := jsCeil v
    let actions : List ChannelAction :=
      match previousSeconds with
      | none => []
      | some p =>
        if roundedSeconds ≠ p then
          if isMuted then []
          else if shouldPlay roundedSeconds tickInterval then
            if useSpeech then speakNumber roundedSeconds else playTickSound
          else []
        else []
    (some roundedSeconds, actions)

/-- Whether a channel action is a feedback call proper (an audio-cue
playback or a spoken utterance), as opposed to the preparatory reset
and cancel calls. -/
def isFeedbackCall : ChannelAction → Bool
  | ChannelAction.playAudio => true
  | ChannelAction.speak _ => true
  | _ => false

/-- Number of feedback calls among the actions of one observation. -/
def feedbackCalls (as : List ChannelAction) : ℕ :=
  (as.filter isFeedbackCall).length

/-- Result of running one channel action: the try/catch blocks in
playTickSound (lines 196-202) and speakNumber (lines 226-228) catch a
playback failure and merely log it. -/
inductive PlayOutcome where
  | completed : PlayOutcome
  | errorCaught : PlayOutcome
deriving DecidableEq, Repr

/-- Execute one channel action against a channel that either succeeds
or fails on the actual playback calls; failures are caught. -/
def runChannelAction (a : ChannelAction) (playbackOk : Bool) : PlayOutcome :=
  match a with
  | ChannelAction.playAudio =>
    if playbackOk then PlayOutcome.completed else PlayOutcome.errorCaught
  | ChannelAction.speak _ =>
    if playbackOk then PlayOutcome.completed else PlayOutcome.errorCaught
  | _ => PlayOutcome.completed

/-- One dispatch step together with the fire-and-forget execution of
its channel actions.  The new `previousSecondsRef` value is produced by
the effect body before any playback result can be observed. -/
def useTickSoundWithPlayback (previousSeconds : Option ℤ)
    (currentSeconds : Option ℚ) (isMuted useSpeech : Bool)
    (tickInterval : ℤ) (playbackOk : Bool) :
    Option ℤ × List PlayOutcome :=
  let r := useTickSound previousSeconds currentSeconds isMuted useSpeech tickInterval
  (r.fst, r.snd.map (fun a => runChannelAction a playbackOk))

/-- A sequence of dispatch steps: fold the effect over a list of
observed values, collecting all issued channel actions. -/
def useTickSoundRun (previousSeconds : Option ℤ) (inputs : List (Option ℚ))
    (isMuted useSpeech : Bool) (tickInterval : ℤ) :
    Option ℤ × List ChannelAction :=
  match inputs with
  | [] => (previousSeconds, [])
  | cur :: rest =>
    let step := useTickSound previousSeconds cur isMuted useSpeech tickInterval
    let later := useTickSoundRun step.fst rest isMuted useSpeech tickInterval
    (later.fst, step.snd ++ later.snd)

lemma shouldPlay_iff {r i : ℤ} (hi : 0 < i) :
    shouldPlay r i = true ↔ (i = 1 ∨ (0 < r ∧ r % i = 0)) := by
  unfold shouldPlay jsRemIsZero
  rw [if_neg (by omega : ¬ i = 0)]
  simp only [Bool.or_eq_true, Bool.and_eq_true, beq_iff_eq, decide_eq_true_eq]
  constructor
  · rintro (h | ⟨hr, hm⟩)
    · exact Or.inl h
    · exact Or.inr ⟨hr, by rw [← Int.tmod_eq_emod hr.le hi.le]; exact hm⟩
  · rintro (h | ⟨hr, hm⟩)
    · exact Or.inl h
    · exact Or.inr ⟨hr, by rw [Int.tmod_eq_emod hr.le hi.le]; exact hm⟩

/-- C3: the first observation after (re)initialization — when
`previousSecondsRef` is unset — issues no channel action at all and
records the rounded value, for every input and configuration. -/
theorem useTickSound_first_observation (v : ℚ) (m sp : Bool) (i : ℤ) :
    useTickSound none (some v) m sp i = (some (jsCeil v), []) := rfl

/-- C4: for an unmuted boundary crossing (previous rounded second `p`,
current rounded second `⌈v⌉ ≠ p`) with positive stride, exactly one
feedback call is emitted when the stride condition holds and none
otherwise: it fires iff `tickInterval = 1`, or the rounded second is
positive and divisible by the stride. -/
theorem useTickSound_stride_filter (p : ℤ) (v : ℚ) (sp : Bool) (i : ℤ)
    (hne : jsCeil v ≠ p) (hi : 0 < i) :
    feedbackCalls (useTickSound (some p) (some v) false sp i).snd =
      if i = 1 ∨ (0 < jsCeil v ∧ jsCeil v % i = 0) then 1 else 0 := by
  by_cases hc : i = 1 ∨ (0 < jsCeil v ∧ jsCeil v % i = 0)
  · have hp : shouldPlay (jsCeil v) i = true := (shouldPlay_iff hi).mpr hc
    rw [if_pos hc]
    cases sp <;>
      simp [useTickSound, hne, hp, speakNumber, playTickSound,
        feedbackCalls, isFeedbackCall]
  · have hp : shouldPlay (jsCeil v) i = false := by
      rcases Bool.eq_false_or_eq_true (shouldPlay (jsCeil v) i) with h | h
      · exact absurd ((shouldPlay_iff hi).mp h) hc
      · exact h
    rw [if_neg hc]
    simp [useTickSound, hne, hp, feedbackCalls]

/-- C4 witness: with stride 5 the crossings 29→28 and 1→0 fire nothing
while 26→25 and 21→20 fire exactly once; with stride 1 a crossing
fires exactly once. -/
theorem useTickSound_stride_filter_witness :
    feedbackCalls (useTickSound (some 29) (some (279/10)) false false 5).snd = 0 ∧
    feedbackCalls (useTickSound (some 26) (some (249/10)) false false 5).snd = 1 ∧
    feedbackCalls (useTickSound (some 21) (some (199/10)) false false 5).snd = 1 ∧
    feedbackCalls (useTickSound (some 1) (some 0) false false 5).snd = 0 ∧
    feedbackCalls (useTickSound (some 4) (some (29/10)) false false 1).snd = 1 := by
  have c1 : jsCeil (279/10 : ℚ) = 28 := by norm_num [jsCeil, Int.ceil_eq_iff]
  have c2 : jsCeil (249/10 : ℚ) = 25 := by norm_num [jsCeil, Int.ceil_eq_iff]
  have c3 : jsCeil (199/10 : ℚ) = 20 := by norm_num [jsCeil, Int.ceil_eq_iff]
  have c0 : jsCeil (0 : ℚ) = 0 := by norm_num [jsCeil]
  have c4 : jsCeil (29/10 : ℚ) = 3 := by norm_num [jsCeil, Int.ceil_eq_iff]
  refine ⟨?_, ?_, ?_, ?_, ?_⟩
  · refine (useTickSound_stride_filter 29 (279/10) false 5 ?_ (by norm_num)).trans ?_ <;>
      rw [c1] <;> norm_num
  · refine (useTickSound_stride_filter 26 (249/10) false 5 ?_ (by norm_num)).trans ?_ <;>
      rw [c2] <;> norm_num
  · refine (useTickSound_stride_filter 21 (199/10) false 5 ?_ (by norm_num)).trans ?_ <;>
      rw [c3] <;> norm_num
  · refine (useTickSound_stride_filter 1 0 false 5 ?_ (by norm_num)).trans ?_ <;>
      rw [c0] <;> norm_num
  · refine (useTickSound_stride_filter 4 (29/10) false 1 ?_ (by norm_num)).trans ?_ <;>
      rw [c4] <;> norm_num

/-- C5 counterexample: with stride 1, unmuted, previous rounded second
1 and an observed position whose rounded second is 0, the dispatcher
does emit a feedback call — the zero-crossing boundary is announced
when `tickInterval === 1`, contradicting the claim that it never is. -/
theorem useTickSound_zero_fires_at_stride_one :
    feedbackCalls (useTickSound (some 1) (some 0) false false 1).snd = 1 := by
  norm_num [useTickSound, jsCeil, shouldPlay, playTickSound,
    feedbackCalls, isFeedbackCall]

/-- C5 amended: for every stride other than 1, a boundary crossing
whose current rounded second equals 0 never results in any channel
action, for every previous state and configuration. -/
theorem useTickSound_zero_never_fires (prev : Option ℤ) (m sp : Bool)
    (i : ℤ) (v : ℚ) (hi : i ≠ 1) (hv : jsCeil v = 0) :
    (useTickSound prev (some v) m sp i).snd = [] := by
  have hp : shouldPlay (jsCeil v) i = false := by
    rw [hv]
    unfold shouldPlay jsRemIsZero
    simp [hi]
  cases prev with
  | none => rfl
  | some p =>
    by_cases hne : jsCeil v ≠ p
    · cases m <;> simp [useTickSound, hne, hp]
    · simp [useTickSound, hne]

/-- C5 amended witness: stride 5, previous rounded second 3, observed
position 0 — no channel action. -/
theorem useTickSound_zero_never_fires_witness :
    (useTickSound (some 3) (some 0) false false 5).snd = [] :=
  useTickSound_zero_never_fires (some 3) false false 5 0 (by norm_num)
    (by norm_num [jsCeil])

/-- C6: after every observation of a defined value, the stored
`previousSecondsRef` equals the rounded observed value, whatever the
mute flag, speech flag and stride, and independently of whether the
playback call succeeds or its failure is caught. -/
theorem useTickSound_state_unconditional (prev : Option ℤ) (v : ℚ)
    (m sp : Bool) (i : ℤ) (playbackOk : Bool) :
    (useTickSoundWithPlayback prev (some v) m sp i playbackOk).fst =
      some (jsCeil v) ∧
    (useTickSoundWithPlayback prev (some v) m sp i false).fst =
      (useTickSoundWithPlayback prev (some v) m sp i true).fst :=
  ⟨rfl, rfl⟩

/-- C7: while muted, no observation sequence ever issues any channel
action — neither the audio cue nor speech is reached, for any stride
and speech setting. -/
theorem useTickSound_muted_never_fires (prev : Option ℤ)
    (inputs : List (Option ℚ)) (sp : Bool) (i : ℤ) :
    (useTickSoundRun prev inputs true sp i).snd = [] := by
  induction inputs generalizing prev with
  | nil => rfl
  | cons cur rest ih =>
    have hstep : ∀ q : Option ℤ, (useTickSound q cur true sp i).snd = [] := by
      intro q
      cases cur with
      | none => rfl
      | some v =>
        cases q with
        | none => rfl
        | some p => by_cases hne : jsCeil v ≠ p <;> simp [useTickSound, hne]
    simp [useTickSoundRun, hstep, ih]

/-- C8: a candidate tick that passes the mute and stride filters is
routed to exactly one channel: with `useSpeech` the in-flight utterance
is cancelled and the rounded second spoken (no audio cue); otherwise
the audio cue is reset to its beginning and played (no speech).  Either
way exactly one feedback call is issued. -/
theorem useTickSound_routing (p : ℤ) (v : ℚ) (sp : Bool) (i : ℤ)
    (hne : jsCeil v ≠ p) (hi : 0 < i)
    (hdue : i = 1 ∨ (0 < jsCeil v ∧ jsCeil v % i = 0)) :
    (useTickSound (some p) (some v) false sp i).snd =
      (if sp then [ChannelAction.cancelSpeech, ChannelAction.speak (jsCeil v)]
       else [ChannelAction.resetAudioTime, ChannelAction.playAudio]) ∧
    feedbackCalls (useTickSound (some p) (some v) false sp i).snd = 1 := by
  have hp : shouldPlay (jsCeil v) i = true := (shouldPlay_iff hi).mpr hdue
  cases sp <;>
    simp [useTickSound, hne, hp, speakNumber, playTickSound,
      feedbackCalls, isFeedbackCall]

/-- C8 witness: crossing 3→2 with stride 1 speaks the number 2 (after a
cancel) in speech mode and restarts-then-plays the cue otherwise. -/
theorem useTickSound_routing_witness :
    (useTickSound (some 3) (some (3/2)) false true 1).snd =
      [ChannelAction.cancelSpeech, ChannelAction.speak 2] ∧
    (useTickSound (some 3) (some (3/2)) false false 1).snd =
      [ChannelAction.resetAudioTime, ChannelAction.playAudio] := by
  have hceil : jsCeil (3/2) = 2 := by
    norm_num [jsCeil, Int.ceil_eq_iff]
  have h1 := useTickSound_routing 3 (3/2) true 1 (by rw [hceil]; norm_num)
    (by norm_num) (Or.inl rfl)
  have h2 := useTickSound_routing 3 (3/2) false 1 (by rw [hceil]; norm_num)
    (by norm_num) (Or.inl rfl)
  refine ⟨h1.1.trans ?_, h2.1.trans ?_⟩ <;> simp [hceil]

/-- C10: an observation with an undefined position value issues no
channel action and leaves `previousSecondsRef` unchanged, for every
configuration. -/
theorem useTickSound_undefined_input (prev : Option ℤ) (m sp : Bool) (i : ℤ) :
    useTickSound prev none m sp i = (prev, []) := rfl

/-! ### URL query-parameter persistence (useQueryParams,
src/src/hooks/useTimer.ts lines 56-165) -/

/-- The decimal digit character for a digit value below ten. -/
def digitChar (d : ℕ) : Char := Char.ofNat (48 + d)

/-- Big-endian decimal digit values of a natural number, as produced by
the JavaScript `String(value)` conversion of an integer-valued
number. -/
def natDigitsBE (m : ℕ) : List ℕ :=
  if h : m < 10 then [m]
  else natDigitsBE (m / 10) ++ [m % 10]
decreasing_by exact Nat.div_lt_self (by omega) (by omega)

/-- The decimal numeral string of a natural number. -/
def natNumeral (m : ℕ) : String :=
  String.mk ((natDigitsBE m).map digitChar)

/-- `String(value)` for an integer-valued number. -/
def jsStringOfInt (n : ℤ) : String :=
  if n < 0 then String.mk (Char.ofNat 45 :: (natDigitsBE n.natAbs).map digitChar)
  else natNumeral n.toNat

/-- `String(value)` for a boolean. -/
def jsStringOfBool (b : Bool) : String :=
  if b then "true" else "false"

/-- Accumulate the leading run of decimal digits, stopping at the first
non-digit character, as `parseInt` does. -/
def parseDigitsAcc : List Char → ℕ → ℕ
  | [], acc => acc
  | c :: cs, acc =>
    if c.isDigit then parseDigitsAcc cs (10 * acc + (c.toNat - 48)) else acc

/-- Parse a non-empty leading run of decimal digits; `none` when the
first character is not a digit (the NaN case of `parseInt`). -/
def parseNatDigits (cs : List Char) : Option ℕ :=
  match cs with
  | [] => none
  | c :: _ => if c.isDigit then some (parseDigitsAcc cs 0) else none

/-- `parseInt(s, 10)`: an optional sign followed by a leading run of
decimal digits, trailing characters ignored, `none` for NaN.  The
leading-whitespace skipping of `parseInt` is elided: `updateURL` never
emits whitespace. -/
def jsParseInt (s : String) : Option ℤ :=
  match s.data with
  | [] => none
  | c :: cs =>
    if c = Char.ofNat 45 then (parseNatDigits cs).map (fun m => -(m : ℤ))
    else if c = Char.ofNat 43 then (parseNatDigits cs).map (fun m => (m : ℤ))
    else (parseNatDigits (c :: cs)).map (fun m => (m : ℤ))

/-- The TimerConfig interface (lines 56-61).  The two numeric fields
are integer-valued in every use (the controls parse integers). -/
structure TimerConfig where
  loopLength : ℤ
  tickInterval : ℤ
  isMuted : Bool
  useSpeech : Bool
deriving DecidableEq, Repr

/-- The `Partial TimerConfig` result of parseQueryParams. -/
structure ParsedTimerConfig where
  loopLength : Option ℤ
  tickInterval : Option ℤ
  isMuted : Option Bool
  useSpeech : Option Bool
deriving DecidableEq, Repr

/-- `URLSearchParams.get`: the value of the first parameter with the
given key, if any. -/
def getParam (ps : List (String × String)) (k : String) : Option String :=
  match ps with
  | [] => none
  | (k1, v1) :: rest => if k1 = k then some v1 else getParam rest k

/-- The shared parse pattern for loopLength and tickInterval
(lines 80-95): if the parameter is present, `parseInt` it and keep it
only when it is a number greater than zero. -/
def parsePositiveIntParam (ps : List (String × String)) (k : String) : Option ℤ :=
  match getParam ps k with
  | none => none
  | some s =>
    match jsParseInt s with
    | none => none
    | some num => if 0 < num then some num else none

/-- The parse pattern for isMuted and useSpeech (lines 97-107): if the
parameter is present, compare its value with the string `true`. -/
def parseBoolParam (ps : List (String × String)) (k : String) : Option Bool :=
  match getParam ps k with
  | none => none
  | some s => some (s == "true")

/-- parseQueryParams (lines 75-110) over a given parameter list. -/
def parseQueryParams (ps : List (String × String)) : ParsedTimerConfig :=
  { loopLength := parsePositiveIntParam ps "loopLength"
    tickInterval := parsePositiveIntParam ps "tickInterval"
    isMuted := parseBoolParam ps "isMuted"
    useSpeech := parseBoolParam ps "useSpeech" }

/-- updateURL (lines 113-136): serialize into the query string, in
entry order of the config object, only the parameters that differ from
the defaults, each as `String(value)`. -/
def updateURL (defaults newValues : TimerConfig) : List (String × String) :=
  (if newValues.loopLength ≠ defaults.loopLength then
    [("loopLength", jsStringOfInt newValues.loopLength)] else []) ++
  (if newValues.tickInterval ≠ defaults.tickInterval then
    [("tickInterval", jsStringOfInt newValues.tickInterval)] else []) ++
  (if newValues.isMuted ≠ defaults.isMuted then
    [("isMuted", jsStringOfBool newValues.isMuted)] else []) ++
  (if newValues.useSpeech ≠ defaults.useSpeech then
    [("useSpeech", jsStringOfBool newValues.useSpeech)] else [])

/-- The merge `{...defaults, ...parsedParams}` of the initialization
effect (lines 139-144). -/
def mergeConfig (defaults : TimerConfig) (parsed : ParsedTimerConfig) : TimerConfig :=
  { loopLength := parsed.loopLength.getD defaults.loopLength
    tickInterval := parsed.tickInterval.getD defaults.tickInterval
    isMuted := parsed.isMuted.getD defaults.isMuted
    useSpeech := parsed.useSpeech.getD defaults.useSpeech }

lemma natDigitsBE_lt_ten : ∀ m, ∀ d ∈ natDigitsBE m, d < 10 := by
  intro m
  induction m using Nat.strong_induction_on with
  | _ m ih =>
    intro d hd
    rw [natDigitsBE] at hd
    split at hd
    · next h =>
      simp only [List.mem_singleton] at hd
      omega
    · next h =>
      rcases List.mem_append.mp hd with h1 | h2
      · exact ih (m / 10) (Nat.div_lt_self (by omega) (by omega)) d h1
      · simp only [List.mem_singleton] at h2
        omega

lemma natDigitsBE_ne_nil (m : ℕ) : natDigitsBE m ≠ [] := by
  rw [natDigitsBE]
  split
  · simp
  · simp

lemma foldl_natDigitsBE : ∀ m, (natDigitsBE m).foldl (fun a d => 10 * a + d) 0 = m := by
  intro m
  induction m using Nat.strong_induction_on with
  | _ m ih =>
    rw [natDigitsBE]
    split
    · next h => simp
    · next h =>
      rw [List.foldl_append, ih (m / 10) (Nat.div_lt_self (by omega) (by omega))]
      simp only [List.foldl_cons, List.foldl_nil]
      omega

lemma digitChar_isDigit {d : ℕ} (hd : d < 10) : (digitChar d).isDigit = true := by
  interval_cases d <;> decide

lemma digitChar_ne_minus {d : ℕ} (hd : d < 10) : digitChar d ≠ Char.ofNat 45 := by
  interval_cases d <;> decide

lemma digitChar_ne_plus {d : ℕ} (hd : d < 10) : digitChar d ≠ Char.ofNat 43 := by
  interval_cases d <;> decide

lemma digitChar_toNat {d : ℕ} (hd : d < 10) : (digitChar d).toNat - 48 = d := by
  interval_cases d <;> decide

lemma parseDigitsAcc_digits : ∀ (l : List ℕ), (∀ d ∈ l, d < 10) → ∀ acc,
    parseDigitsAcc (l.map digitChar) acc = l.foldl (fun a d => 10 * a + d) acc := by
  intro l
  induction l with
  | nil => intro _ acc; rfl
  | cons d rest ih =>
    intro hlt acc
    have hd : d < 10 := hlt d (by simp)
    simp only [List.map_cons, parseDigitsAcc, digitChar_isDigit hd, if_true,
      digitChar_toNat hd, List.foldl_cons]
    exact ih (fun x hx => hlt x (by simp [hx])) _

lemma jsParseInt_mk_cons (c : Char) (cs : List Char) :
    jsParseInt (String.mk (c :: cs)) =
      if c = Char.ofNat 45 then (parseNatDigits cs).map (fun m => -(m : ℤ))
      else if c = Char.ofNat 43 then (parseNatDigits cs).map (fun m => (m : ℤ))
      else (parseNatDigits (c :: cs)).map (fun m => (m : ℤ)) := rfl

lemma parseNatDigits_cons (c : Char) (cs : List Char) :
    parseNatDigits (c :: cs) =
      if c.isDigit then some (parseDigitsAcc (c :: cs) 0) else none := rfl

lemma jsParseInt_natNumeral (m : ℕ) : jsParseInt (natNumeral m) = some (m : ℤ) := by
  obtain ⟨d, rest, hcons⟩ := List.exists_cons_of_ne_nil (natDigitsBE_ne_nil m)
  have hd : d < 10 := natDigitsBE_lt_ten m d (by rw [hcons]; simp)
  have hacc := parseDigitsAcc_digits (natDigitsBE m) (natDigitsBE_lt_ten m) 0
  rw [foldl_natDigitsBE m, hcons, List.map_cons] at hacc
  have hmk : natNumeral m = String.mk (digitChar d :: rest.map digitChar) := by
    rw [natNumeral, hcons, List.map_cons]
  rw [hmk, jsParseInt_mk_cons, if_neg (digitChar_ne_minus hd),
    if_neg (digitChar_ne_plus hd), parseNatDigits_cons,
    if_pos (digitChar_isDigit hd), hacc]
  rfl

lemma jsParseInt_jsStringOfInt {n : ℤ} (hn : 0 < n) :
    jsParseInt (jsStringOfInt n) = some n := by
  rw [jsStringOfInt, if_neg (by omega), jsParseInt_natNumeral]
  congr 1
  omega

lemma jsStringOfBool_roundtrip (b : Bool) : (jsStringOfBool b == "true") = b := by
  cases b <;> decide

lemma getParam_append (l1 l2 : List (String × String)) (k : String) :
    getParam (l1 ++ l2) k =
      match getParam l1 k with
      | some v => some v
      | none => getParam l2 k := by
  induction l1 with
  | nil => rfl
  | cons p rest ih =>
    obtain ⟨k1, v1⟩ := p
    simp only [List.cons_append, getParam]
    split <;> simp [ih]

lemma getParam_nil (k : String) : getParam [] k = none := rfl

lemma getParam_cons (k1 v1 : String) (rest : List (String × String)) (k : String) :
    getParam ((k1, v1) :: rest) k = if k1 = k then some v1 else getParam rest k := rfl

lemma getParam_piece_ne (P : Prop) [Decidable P] (k1 v k : String) (hne : k1 ≠ k) :
    getParam (if P then [(k1, v)] else []) k = none := by
  split <;> simp [getParam, hne]

lemma getParam_piece_self (P : Prop) [Decidable P] (k v : String) :
    getParam (if P then [(k, v)] else []) k = if P then some v else none := by
  split <;> simp [getParam]

lemma getParam_piece_nil_ne (P : Prop) [Decidable P] (k1 v k : String) (hne : k1 ≠ k) :
    getParam (if P then [] else [(k1, v)]) k = none := by
  split <;> simp [getParam, hne]

lemma getParam_piece_nil_self (P : Prop) [Decidable P] (k v : String) :
    getParam (if P then [] else [(k, v)]) k = if P then none else some v := by
  split <;> simp [getParam]

/-- C9: serializing a config whose numeric fields are positive integers
into the query string relative to a defaults object, then parsing the
query string back and merging over the same defaults, restores the
original config. -/
theorem useQueryParams_roundtrip (defaults c : TimerConfig)
    (h1 : 0 < c.loopLength) (h2 : 0 < c.tickInterval) :
    mergeConfig defaults (parseQueryParams (updateURL defaults c)) = c := by
  obtain ⟨dl, dt, dm, ds⟩ := defaults
  obtain ⟨cl, ct, cm, cs⟩ := c
  simp only [TimerConfig.loopLength] at h1
  simp only [TimerConfig.tickInterval] at h2
  have hLoop : getParam (updateURL ⟨dl, dt, dm, ds⟩ ⟨cl, ct, cm, cs⟩) "loopLength" =
      if cl ≠ dl then some (jsStringOfInt cl) else none := by
    by_cases hc : cl = dl <;>
      simp [updateURL, getParam_append, getParam_nil, getParam_cons,
        getParam_piece_ne, getParam_piece_self, getParam_piece_nil_ne,
        getParam_piece_nil_self, hc]
  have hTick : getParam (updateURL ⟨dl, dt, dm, ds⟩ ⟨cl, ct, cm, cs⟩) "tickInterval" =
      if ct ≠ dt then some (jsStringOfInt ct) else none := by
    by_cases hc : ct = dt <;>
      simp [updateURL, getParam_append, getParam_nil, getParam_cons,
        getParam_piece_ne, getParam_piece_self, getParam_piece_nil_ne,
        getParam_piece_nil_self, hc]
  have hMuted : getParam (updateURL ⟨dl, dt, dm, ds⟩ ⟨cl, ct, cm, cs⟩) "isMuted" =
      if cm ≠ dm then some (jsStringOfBool cm) else none := by
    by_cases hc : cm = dm <;>
      simp [updateURL, getParam_append, getParam_nil, getParam_cons,
        getParam_piece_ne, getParam_piece_self, getParam_piece_nil_ne,
        getParam_piece_nil_self, hc]
  have hSpeech : getParam (updateURL ⟨dl, dt, dm, ds⟩ ⟨cl, ct, cm, cs⟩) "useSpeech" =
      if cs ≠ ds then some (jsStringOfBool cs) else none := by
    by_cases hc : cs = ds <;>
      simp [updateURL, getParam_append, getParam_nil, getParam_cons,
        getParam_piece_ne, getParam_piece_self, getParam_piece_nil_ne,
        getParam_piece_nil_self, hc]
  rw [mergeConfig, parseQueryParams]
  simp only [parsePositiveIntParam, parseBoolParam, hLoop, hTick, hMuted, hSpeech,
    TimerConfig.mk.injEq]
  refine ⟨?_, ?_, ?_, ?_⟩
  · by_cases h : cl = dl
    · simp [h]
    · simp [h, jsParseInt_jsStringOfInt h1, h1]
  · by_cases h : ct = dt
    · simp [h]
    · simp [h, jsParseInt_jsStringOfInt h2, h2]
  · by_cases h : cm = dm
    · simp [h]
    · simp [h, jsStringOfBool_roundtrip]
  · by_cases h : cs = ds
    · simp [h]
    · simp [h, jsStringOfBool_roundtrip]

/-- C9 witness: defaults 30/5/false/false, config 60/1/true/true — the
round trip through the query string restores the config. -/
theorem useQueryParams_roundtrip_witness :
    mergeConfig ⟨30, 5, false, false⟩
      (parseQueryParams (updateURL ⟨30, 5, false, false⟩ ⟨60, 1, true, true⟩)) =
      ⟨60, 1, true, true⟩ :=
  useQueryParams_roundtrip ⟨30, 5, false, false⟩ ⟨60, 1, true, true⟩
    (by norm_num) (by norm_num)

end LoopingTimer
